import Mathlib

/-!
Shallow embedding of the real-time audio pipeline in `src/main.rs` of
whisper_test: the kanal bounded channels wired between the stages, the
`SafeOpusEncoder` / `SafeOpusDecoder` wrappers, the `encoding_thread` and
`decoding_thread` worker loops, and main's shutdown/cleanup path.  The native
libopus calls (`opus_encoder_create`, `opus_encode`, `opus_decode`, the
destroy functions) are foreign; their behaviour is modelled by abstract
parameters recording the return status and the bytes/samples they write,
while everything the Rust code itself does with those results is embedded
faithfully.
-/

namespace WhisperTest

/-- `const FRAME_SIZE: i32 = 960` (main.rs:81). -/
def FRAME_SIZE : Int := 960

/-- Length of the scratch buffer `vec![0; 4000]` allocated per encode
iteration (main.rs:148). -/
def OPUS_BUFFER_LEN : Nat := 4000

/-! ## kanal bounded channels (main.rs:229-235)

All three inter-stage links are `kanal::bounded(10)` channels.  The producer
side used everywhere in this program is `Sender::send` (main.rs:105, 133,
151), kanal's *blocking* bounded send: when the channel holds fewer than
`cap` items the message is appended and the call returns at once; when the
channel is full the caller blocks until a consumer makes room.  We model the
immediate outcome of one `send` on an open channel currently holding
`queue`. -/

/-- Immediate outcome of `Sender::send` on an open bounded kanal channel. -/
inductive SendResult (α : Type) where
  | accepted (queue : List α)
  | blocked
  deriving Repr, DecidableEq

/-- One `send` call: append when below capacity, block when full. -/
def kanalSend {α : Type} (cap : Nat) (queue : List α) (x : α) : SendResult α :=
  if queue.length < cap then SendResult.accepted (queue ++ [x]) else SendResult.blocked

/-- Sending each element of the second list in order: `some` final contents
when every send is immediately accepted, `none` when some send finds the
channel full (that caller would block). -/
def kanalSendAll {α : Type} (cap : Nat) : List α → List α → Option (List α)
  | queue, [] => some queue
  | queue, x :: xs =>
    match kanalSend cap queue x with
    | SendResult.accepted q => kanalSendAll cap q xs
    | SendResult.blocked => none

/-- The non-blocking property the spec asserts of every producer-side push. -/
def sendNeverBlocks {α : Type} (cap : Nat) (queue : List α) (x : α) : Prop :=
  kanalSend cap queue x ≠ SendResult.blocked

/-! ## SafeOpusEncoder and encoding_thread (main.rs:26-51, 142-154) -/

/-- What one call to `SafeOpusEncoder::encode` (main.rs:38-42) hands to the
foreign `opus_encode`: the pcm buffer (by pointer), the constant `FRAME_SIZE`
as the per-channel sample count — the wrapper never consults
`pcm_data.len()` — and `opus_buffer.len()` as the byte budget. -/
structure EncodeInvocation where
  pcmData : List Int
  frameSizeArg : Int
  maxDataBytes : Int
  deriving Repr, DecidableEq

/-- `SafeOpusEncoder::encode` (main.rs:38-42): passes the pcm slice through
unchanged and declares `FRAME_SIZE` samples regardless of its length. -/
def SafeOpusEncoder.encode (pcmData : List Int) (opusBufferLen : Nat) : EncodeInvocation :=
  { pcmData := pcmData, frameSizeArg := FRAME_SIZE, maxDataBytes := (opusBufferLen : Int) }

/-- Abstract behaviour of the foreign `opus_encode` call: its return status
and the bytes it writes into the output buffer, as functions of the pcm
input handed over. -/
structure NativeEncoder where
  ret : List Int → Int
  byte : List Int → Nat → Nat

/-- What one iteration of `encoding_thread` does with the native result
(main.rs:150-152): push the first `encoded_bytes` bytes when
`encoded_bytes > 0`, silently discard the frame otherwise; slicing
`opus_buffer[..encoded_bytes as usize]` panics past the buffer length. -/
inductive EncodeStepResult where
  | sent (packet : List Nat)
  | dropped
  | panicked
  deriving Repr, DecidableEq

/-- One iteration of `encoding_thread` after `pcm_rx.recv()` returned
`Ok(pcm_data)` (main.rs:147-153): allocate `opus_buffer = vec![0; 4000]`,
call `encode` on the received block unchanged, and send
`opus_buffer[..encoded_bytes as usize].to_vec()` downstream only when
`encoded_bytes > 0`.  Returns the invocation handed to `opus_encode`
together with what was pushed.  The buffer after the foreign call is the
4000-byte array with contents `native.byte pcm`. -/
def encodingStep (native : NativeEncoder) (pcm : List Int) :
    EncodeInvocation × EncodeStepResult :=
  let inv := SafeOpusEncoder.encode pcm OPUS_BUFFER_LEN
  let encodedBytes := native.ret pcm
  let result :=
    if 0 < encodedBytes then
      if encodedBytes.toNat ≤ OPUS_BUFFER_LEN then
        EncodeStepResult.sent
          (((List.range OPUS_BUFFER_LEN).map (native.byte pcm)).take encodedBytes.toNat)
      else EncodeStepResult.panicked
    else EncodeStepResult.dropped
  (inv, result)

/-- `encoding_thread` (main.rs:142-154): `while let Ok(pcm_data) =
pcm_rx.recv() { … }`.  The loop is guarded solely by the channel receive —
the shared `running: AtomicBool` is never read by this stage, so it appears
here as an unused parameter.  `incoming` is the sequence of blocks the
channel delivers before it closes. -/
def encodingThreadRun (native : NativeEncoder) (running : Bool) :
    List (List Int) → List (EncodeInvocation × EncodeStepResult)
  | [] => []
  | pcm :: rest => encodingStep native pcm :: encodingThreadRun native running rest

/-! ## SafeOpusDecoder and decoding_thread (main.rs:54-79, 156-165) -/

/-- Abstract behaviour of the foreign `opus_decode` call: its return status
and the samples it writes into `pcm_out`, as functions of the packet. -/
structure NativeDecoder where
  ret : List Nat → Int
  sample : List Nat → Nat → Int

/-- Everything one iteration of `decoding_thread` produces.  The loop body
(main.rs:160-164) is `let mut pcm_out = vec![0; FRAME_SIZE as usize];
decode(…);` followed only by a comment: the returned status and the filled
buffer are both discarded, and nothing is logged, pushed downstream, or
propagated — `logged` records the error codes the stage reports (none). -/
structure DecodeIteration where
  packetArg : List Nat
  lenArg : Int
  frameSizeArg : Int
  status : Int
  pcmOut : List Int
  logged : List Int
  deriving Repr, DecidableEq

/-- One iteration of `decoding_thread` after `encoded_rx.recv()` returned
`Ok(encoded_data)` (main.rs:160-164), via `SafeOpusDecoder::decode`
(main.rs:66-70). -/
def decodingStep (native : NativeDecoder) (packet : List Nat) : DecodeIteration :=
  { packetArg := packet
    lenArg := (packet.length : Int)
    frameSizeArg := FRAME_SIZE
    status := native.ret packet
    pcmOut := (List.range FRAME_SIZE.toNat).map (native.sample packet)
    logged := [] }

/-- `decoding_thread` (main.rs:156-165): `while let Ok(encoded_data) =
encoded_rx.recv() { … }`.  As with the encoder, the loop is guarded solely
by the channel receive; the `running` flag is never read by this stage. -/
def decodingThreadRun (native : NativeDecoder) (running : Bool) :
    List (List Nat) → List DecodeIteration
  | [] => []
  | packet :: rest => decodingStep native packet :: decodingThreadRun native running rest

/-! ## Handle construction (main.rs:33-36, 61-64)

`opus_encoder_create(sample_rate, channels, app, &mut 0)` returns a raw
pointer (NULL when the library allocates no valid state) and writes a status
through the error out-parameter.  Both wrappers pass a discarded `&mut 0`
for that parameter and wrap whatever pointer comes back in `Self`
unconditionally: neither constructor has a failure path. -/

/-- Result of a native create call: the pointer (`none` models NULL) and the
status written through the out-parameter. -/
structure NativeCreateResult where
  ptr : Option Unit
  status : Int
  deriving Repr, DecidableEq

/-- Constructor outcomes in the vocabulary of the spec's contract: either a
handle wrapping the pointer the native call produced, or a
`CodecInitError`. -/
inductive CtorResult where
  | handle (ptr : Option Unit)
  | codecInitError (code : Int)
  deriving Repr, DecidableEq

/-- Whether a constructor outcome is a handle (as opposed to an error). -/
def CtorResult.isHandle : CtorResult → Bool
  | CtorResult.handle _ => true
  | CtorResult.codecInitError _ => false

/-- `SafeOpusEncoder::new` (main.rs:33-36): wraps the returned pointer in
`Self` unconditionally; the native status is discarded and never influences
control flow.  `native` gives the native create call's behaviour for each
(sample_rate, channels) pair. -/
def SafeOpusEncoder.new (native : Int → Int → NativeCreateResult)
    (sampleRate channels : Int) : CtorResult :=
  CtorResult.handle (native sampleRate channels).ptr

/-- `SafeOpusDecoder::new` (main.rs:61-64): identical shape — returns `Self`
unconditionally, discarding the status. -/
def SafeOpusDecoder.new (native : Int → Int → NativeCreateResult)
    (sampleRate channels : Int) : CtorResult :=
  CtorResult.handle (native sampleRate channels).ptr

/-! ## Handle release (main.rs:45-51, 73-79, 302-309)

`impl Drop for SafeOpusEncoder` calls `opus_encoder_destroy` on the stored
pointer, and main's cleanup block *also* calls `opus_encoder_destroy` on the
same pointer through the still-live `Arc<Mutex<SafeOpusEncoder>>`; when the
last `Arc` reference is then released (in main, once the worker threads have
dropped their clones), `Drop::drop` runs and destroys the handle a second
time.  Likewise for the decoder.  We count native destroy calls on one
handle along this clean-exit path. -/

/-- One native `opus_encoder_destroy` call (a counter on the handle). -/
def opusEncoderDestroy (destroyCalls : Nat) : Nat := destroyCalls + 1

/-- One native `opus_decoder_destroy` call. -/
def opusDecoderDestroy (destroyCalls : Nat) : Nat := destroyCalls + 1

/-- `impl Drop for SafeOpusEncoder` (main.rs:45-51). -/
def SafeOpusEncoder.drop (destroyCalls : Nat) : Nat := opusEncoderDestroy destroyCalls

/-- `impl Drop for SafeOpusDecoder` (main.rs:73-79). -/
def SafeOpusDecoder.drop (destroyCalls : Nat) : Nat := opusDecoderDestroy destroyCalls

/-- Destroy calls the encoder handle receives on main's clean-exit path:
the explicit `opus_encoder_destroy` in main's cleanup block (main.rs:303-305)
followed by the `Drop` impl running when the last `Arc` reference is
released at scope end. -/
def mainCleanExitEncoderDestroys : Nat :=
  SafeOpusEncoder.drop (opusEncoderDestroy 0)

/-- Same for the decoder handle (main.rs:307-308, then `Drop`). -/
def mainCleanExitDecoderDestroys : Nat :=
  SafeOpusDecoder.drop (opusDecoderDestroy 0)

/-! ## main's shutdown path (main.rs:244-251, 279-312)

Both `thread::spawn` calls discard their `JoinHandle`s (main.rs:244-251), as
does the plotting spawn (main.rs:272-277), so no stage thread is ever
joined.  After the key/interrupt loop breaks, main restores the terminal,
destroys the two codec handles, and returns `Ok(())`.  The stage threads
have no channel back to main: whatever they did cannot influence the value
main returns on this path. -/

/-- The actions main performs after its event loop breaks (main.rs:293-309),
in order. -/
inductive MainStep where
  | joinThread
  | restoreTerminal
  | destroyEncoderHandle
  | destroyDecoderHandle
  deriving Repr, DecidableEq

/-- main's post-loop sequence (main.rs:293-309): restore the terminal, then
the explicit handle destroys.  No join of any stage thread occurs. -/
def mainShutdownSteps : List MainStep :=
  [MainStep.restoreTerminal, MainStep.destroyEncoderHandle, MainStep.destroyDecoderHandle]

/-- The value main returns when its loop exits via `q` or the interrupt flag
(main.rs:311): `Ok(())`.  `stageOutcomes` stands for the per-stage fatal
errors or successes, which main never observes — the parameter is unused
because the source provides no path from the threads back to main. -/
def mainResult (stageOutcomes : List (Except Int Unit)) : Except Int Unit :=
  Except.ok ()

/-! ## Concrete native behaviours used to evaluate the model -/

/-- A native encoder returning status 0 and writing zeros. -/
def nativeEncZero : NativeEncoder :=
  { ret := fun _ => 0, byte := fun _ _ => 0 }

/-- A native encoder returning 2 bytes and writing the byte index. -/
def nativeEncTwo : NativeEncoder :=
  { ret := fun _ => 2, byte := fun _ i => i }

/-- A native decoder rejecting every packet with status -1. -/
def nativeDecFail : NativeDecoder :=
  { ret := fun _ => -1, sample := fun _ _ => 0 }

/-- A native create call that rejects the configuration: NULL pointer,
negative status. -/
def rejectingCreate : Int → Int → NativeCreateResult :=
  fun _ _ => { ptr := none, status := -1 }

/-- Whether an encode-step outcome pushed a packet downstream. -/
def EncodeStepResult.isSent : EncodeStepResult → Bool
  | EncodeStepResult.sent _ => true
  | EncodeStepResult.dropped => false
  | EncodeStepResult.panicked => false

/-! ## Helper lemmas -/

theorem kanalSendAll_accepted {α : Type} (cap : Nat) (xs : List α) :
    ∀ queue : List α, queue.length + xs.length ≤ cap →
      kanalSendAll cap queue xs = some (queue ++ xs) := by
  induction xs with
  | nil => intro queue h; simp [kanalSendAll]
  | cons x xs ih =>
    intro queue h
    have hlt : queue.length < cap := by
      simp only [List.length_cons] at h; omega
    have h2 : (queue ++ [x]).length + xs.length ≤ cap := by
      simp only [List.length_append, List.length_singleton]
      simp only [List.length_cons] at h
      omega
    simp only [kanalSendAll, kanalSend, if_pos hlt]
    rw [ih (queue ++ [x]) h2]
    simp

theorem encodingThreadRun_flag_independent (ne : NativeEncoder) (a b : Bool)
    (pcms : List (List Int)) :
    encodingThreadRun ne a pcms = encodingThreadRun ne b pcms := by
  induction pcms with
  | nil => rfl
  | cons p rest ih => simp [encodingThreadRun, ih]

theorem encodingThreadRun_length (ne : NativeEncoder) (r : Bool)
    (pcms : List (List Int)) :
    (encodingThreadRun ne r pcms).length = pcms.length := by
  induction pcms with
  | nil => rfl
  | cons p rest ih => simp [encodingThreadRun, ih]

theorem decodingThreadRun_flag_independent (nd : NativeDecoder) (a b : Bool)
    (pkts : List (List Nat)) :
    decodingThreadRun nd a pkts = decodingThreadRun nd b pkts := by
  induction pkts with
  | nil => rfl
  | cons p rest ih => simp [decodingThreadRun, ih]

theorem decodingThreadRun_length (nd : NativeDecoder) (r : Bool)
    (pkts : List (List Nat)) :
    (decodingThreadRun nd r pkts).length = pkts.length := by
  induction pkts with
  | nil => rfl
  | cons p rest ih => simp [decodingThreadRun, ih]

/-! ## C1: producer-side push on the bounded queues -/

/-- C1 counterexample: the producer-side push is not non-blocking.  Pushing
into a capacity-10 kanal channel already holding 10 items blocks the caller;
it does not drop the newest item and report `Dropped`. -/
theorem c1_full_push_blocks :
    ¬ sendNeverBlocks 10 (List.replicate 10 (0 : Int)) 1 := by
  intro h
  exact h (by decide)

/-- C1 (amended): kanal's bounded `send` — the push used by the capture
callback (main.rs:105) and the encoder stage (main.rs:151) — blocks when the
queue is full, keeping the resident items and dropping nothing, and any
sequence of at most C sends into an empty capacity-C channel is fully
accepted in order. -/
theorem c1_bounded_send_blocks_when_full {α : Type} (cap : Nat) (queue : List α)
    (x : α) (xs : List α) (hfull : cap ≤ queue.length) (hfit : xs.length ≤ cap) :
    kanalSend cap queue x = SendResult.blocked ∧
    kanalSendAll cap [] xs = some xs := by
  constructor
  · simp [kanalSend, Nat.not_lt.mpr hfull]
  · have h := kanalSendAll_accepted cap xs [] (by simpa using hfit)
    simpa using h

/-- C1 witness: capacity 10, a full queue of ten items, then three sends
into an empty channel. -/
theorem c1_bounded_send_blocks_when_full_witness :
    kanalSend 10 (List.replicate 10 (0 : Int)) 1 = SendResult.blocked ∧
    kanalSendAll 10 [] [(1 : Int), 2, 3] = some [1, 2, 3] :=
  c1_bounded_send_blocks_when_full 10 (List.replicate 10 0) 1 [1, 2, 3]
    (by decide) (by decide)

/-! ## C2: frame length handed to the codec -/

/-- C2: the encoding stage has no reframing buffer.  A 480-sample capture
block is handed to `opus_encode` unchanged while `FRAME_SIZE = 960` samples
are declared — the mismatched block reaches the codec directly. -/
theorem c2_mismatched_block_reaches_codec :
    (encodingStep nativeEncZero (List.replicate 480 0)).fst
        = { pcmData := List.replicate 480 0, frameSizeArg := 960, maxDataBytes := 4000 } ∧
    (List.replicate 480 (0 : Int)).length ≠ FRAME_SIZE.toNat := by
  refine ⟨rfl, ?_⟩
  rw [List.length_replicate]
  decide

/-! ## C3: handle release count -/

/-- C3: on main's clean-exit path each codec handle is destroyed twice — the
explicit `opus_*_destroy` in main's cleanup block and then the `Drop` impl
when the last `Arc` reference is released — not exactly once. -/
theorem c3_destroy_called_twice :
    mainCleanExitEncoderDestroys = 2 ∧ mainCleanExitDecoderDestroys = 2 := by
  decide

/-! ## C4: shutdown flag and the worker loops -/

/-- C4 counterexample: with the shared flag already false (STOPPED) and one
message still in the channel, both worker stages run an iteration — and
hence a codec call — because their loops never read the flag. -/
theorem c4_worker_runs_after_stop :
    (encodingThreadRun nativeEncZero false [List.replicate 960 0]).length = 1 ∧
    (decodingThreadRun nativeDecFail false [[0]]).length = 1 := by
  decide

/-- C4 (amended): the encoder and decoder worker loops are guarded solely by
their input channel's receive result: their behaviour is identical for both
values of the shutdown flag, and they perform one codec invocation per
delivered message regardless of the flag, exiting only when the channel
closes. -/
theorem c4_worker_loops_ignore_shutdown_flag (ne : NativeEncoder)
    (nd : NativeDecoder) (pcms : List (List Int)) (pkts : List (List Nat)) :
    encodingThreadRun ne true pcms = encodingThreadRun ne false pcms ∧
    (encodingThreadRun ne false pcms).length = pcms.length ∧
    decodingThreadRun nd true pkts = decodingThreadRun nd false pkts ∧
    (decodingThreadRun nd false pkts).length = pkts.length :=
  ⟨encodingThreadRun_flag_independent ne true false pcms,
   encodingThreadRun_length ne false pcms,
   decodingThreadRun_flag_independent nd true false pkts,
   decodingThreadRun_length nd false pkts⟩

/-! ## C5: constructor failure behaviour -/

/-- C5 counterexample: a native create call that rejects the configuration
(NULL state, status -1) still yields a handle from both constructors; no
`CodecInitError` is produced. -/
theorem c5_rejected_create_still_returns_handle :
    (rejectingCreate 48000 1).status = -1 ∧
    (rejectingCreate 48000 1).ptr = none ∧
    (SafeOpusEncoder.new rejectingCreate 48000 1).isHandle = true ∧
    (SafeOpusDecoder.new rejectingCreate 48000 1).isHandle = true := by
  decide

/-- C5 (amended): both constructors always return a handle wrapping whatever
pointer the native create produced — possibly NULL — for every native
behaviour and every sample-rate/channel pair; construction never fails and
the native status is discarded. -/
theorem c5_constructors_never_fail (native : Int → Int → NativeCreateResult)
    (sampleRate channels : Int) :
    (SafeOpusEncoder.new native sampleRate channels).isHandle = true ∧
    (SafeOpusDecoder.new native sampleRate channels).isHandle = true ∧
    SafeOpusEncoder.new native sampleRate channels
        = CtorResult.handle (native sampleRate channels).ptr ∧
    SafeOpusDecoder.new native sampleRate channels
        = CtorResult.handle (native sampleRate channels).ptr :=
  ⟨rfl, rfl, rfl, rfl⟩

/-! ## C6: decode failure handling -/

/-- C6 counterexample: on a packet the native decoder rejects with status -1
the stage logs nothing (no `DecodeError` is surfaced anywhere), and the loop
simply continues to the next packet. -/
theorem c6_negative_status_unreported :
    nativeDecFail.ret [0] = -1 ∧
    (decodingStep nativeDecFail [0]).status = -1 ∧
    (decodingStep nativeDecFail [0]).logged = [] ∧
    (decodingThreadRun nativeDecFail false [[0], [1]]).length = 2 := by
  refine ⟨rfl, rfl, rfl, ?_⟩
  decide

/-- C6 (amended): every decode call fills a buffer of exactly
`FRAME_SIZE` samples and hands back the native status; the stage ignores
that status entirely — it constructs no `DecodeError` and logs nothing —
and in all cases (success or negative status alike) the packet is dropped
after the call and the loop continues, one iteration per packet. -/
theorem c6_decode_status_ignored (native : NativeDecoder) (packet : List Nat)
    (packets : List (List Nat)) :
    (decodingStep native packet).pcmOut.length = FRAME_SIZE.toNat ∧
    (decodingStep native packet).status = native.ret packet ∧
    (decodingStep native packet).logged = [] ∧
    (decodingThreadRun native false packets).length = packets.length :=
  ⟨by simp [decodingStep], rfl, rfl, decodingThreadRun_length native false packets⟩

/-! ## C7: joining and the process result -/

/-- C7 counterexample: main's post-loop sequence contains no thread join,
and main returns `Ok(())` even when a stage suffered a fatal error
(here error code 7). -/
theorem c7_no_join_and_ok_despite_stage_error :
    MainStep.joinThread ∉ mainShutdownSteps ∧
    mainResult [Except.error 7] = Except.ok () :=
  ⟨by decide, rfl⟩

/-- C7 (amended): the orchestrator joins no stage thread (the spawn handles
are discarded), and on the normal exit path main's result is `Ok(())`
independent of every stage outcome. -/
theorem c7_main_joins_nothing (outcomes : List (Except Int Unit)) :
    MainStep.joinThread ∉ mainShutdownSteps ∧
    mainResult outcomes = Except.ok () :=
  ⟨by decide, rfl⟩

/-! ## C9: pushed packet lengths -/

/-- C9: every packet the encoder stage pushes downstream has length equal to
the byte count the native encode call returned, bounded by the 4000-byte
encode buffer. -/
theorem c9_packet_length_matches_native_count (native : NativeEncoder)
    (pcm : List Int) (packet : List Nat)
    (hsent : (encodingStep native pcm).snd = EncodeStepResult.sent packet) :
    packet.length ≤ OPUS_BUFFER_LEN ∧ (packet.length : Int) = native.ret pcm := by
  simp only [encodingStep] at hsent
  by_cases h1 : 0 < native.ret pcm
  · rw [if_pos h1] at hsent
    by_cases h2 : (native.ret pcm).toNat ≤ OPUS_BUFFER_LEN
    · rw [if_pos h2] at hsent
      injection hsent with h3
      subst h3
      have hlen : (((List.range OPUS_BUFFER_LEN).map (native.byte pcm)).take
          (native.ret pcm).toNat).length = (native.ret pcm).toNat := by
        simp [List.length_take]
        omega
      rw [hlen]
      exact ⟨h2, by omega⟩
    · rw [if_neg h2] at hsent
      simp at hsent
  · rw [if_neg h1] at hsent
    simp at hsent

set_option maxRecDepth 20000 in
/-- C9 witness: a native encoder reporting 2 bytes yields the 2-byte packet
`[0, 1]` from the buffer it wrote. -/
theorem c9_packet_length_matches_native_count_witness :
    ([0, 1] : List Nat).length ≤ OPUS_BUFFER_LEN ∧
    (([0, 1] : List Nat).length : Int) = nativeEncTwo.ret [1, 2, 3] :=
  c9_packet_length_matches_native_count nativeEncTwo [1, 2, 3] [0, 1] (by decide)

/-! ## C10: push condition on the encoder stage -/

/-- C10: given the native contract that the returned byte count never
exceeds the buffer length, the encoder stage pushes a packet downstream iff
the native encode call returned a strictly positive byte count; a zero or
negative status silently discards the frame — the step's outcome is the bare
`dropped`, carrying no error, counter, or log. -/
theorem c10_push_iff_positive_count (native : NativeEncoder) (pcm : List Int)
    (hcontract : native.ret pcm ≤ (OPUS_BUFFER_LEN : Int)) :
    ((encodingStep native pcm).snd.isSent = true ↔ 0 < native.ret pcm) ∧
    (native.ret pcm ≤ 0 → (encodingStep native pcm).snd = EncodeStepResult.dropped) := by
  simp only [encodingStep]
  by_cases h1 : 0 < native.ret pcm
  · have h2 : (native.ret pcm).toNat ≤ OPUS_BUFFER_LEN := by omega
    rw [if_pos h1, if_pos h2]
    exact ⟨by simp [EncodeStepResult.isSent, h1], fun h => absurd h1 (by omega)⟩
  · rw [if_neg h1]
    exact ⟨by simp [EncodeStepResult.isSent]; omega, fun _ => rfl⟩

/-- C10 witness: the same native encoder reporting 2 bytes. -/
theorem c10_push_iff_positive_count_witness :
    ((encodingStep nativeEncTwo [5]).snd.isSent = true ↔ 0 < nativeEncTwo.ret [5]) ∧
    (nativeEncTwo.ret [5] ≤ 0 →
      (encodingStep nativeEncTwo [5]).snd = EncodeStepResult.dropped) :=
  c10_push_iff_positive_count nativeEncTwo [5] (by decide)

end WhisperTest
